import Mathlib

/-
Verification of the portkey gateway-client builder (src/lib.rs).

The library wraps `async-openai`: `Client::new(api_key, virtual_key)` builds
a reqwest transport whose default headers carry `x-portkey-virtual-key`,
an `OpenAIConfig` pointing at the Portkey base URL with `api_key` as the
bearer credential, binds them into an `OpenAIClient`, and returns a wrapper
retaining copies of `base_url`, `virtual_key` and `api_key`.
`Client::openai(self)` consumes the wrapper and returns the embedded client.

The embedding below follows the Rust source line by line.  The two `expect`
calls in `Client::new` are the fallible steps; they are modelled as an
`Except` error channel (the spec's construction-failure taxonomy).
-/

namespace Portkey

/-- Validity of one character of a header value, modelling
`http::HeaderValue::from_str` applied to the UTF-8 encoding of the string:
a byte is valid iff it is TAB (9) or at least 32 and not DEL (127).
A character with codepoint below 0x80 encodes as the single byte equal to
its codepoint; a character at 0x80 or above encodes only as bytes at 0x80
or above, which are all valid, and its codepoint is itself at least 32 and
not 127 — so per-character validity on codepoints coincides exactly with
per-byte validity on the UTF-8 encoding. -/
def isValidHeaderValueChar (c : Char) : Bool :=
  c.toNat == 9 || (32 ≤ c.toNat && c.toNat != 127)

/-- A string is a valid HTTP header value iff every character is valid. -/
def isValidHeaderValue (s : String) : Bool :=
  s.data.all isValidHeaderValueChar

/-- Construction-failure taxonomy of the builder: the `expect` on parsing
`virtual_key` as a header value, and the `expect` on building the reqwest
client. -/
inductive ConstructError where
  | headerEncodingError
  | transportInitError
deriving DecidableEq, Repr

/-- Model of `virtual_key.parse::<HeaderValue>()` (src/lib.rs:80): succeeds
with the same string exactly when every byte is a valid header-value byte. -/
def headerValueParse (s : String) : Except ConstructError String :=
  if isValidHeaderValue s then .ok s else .error .headerEncodingError

/-- Model of `reqwest::header::HeaderMap`: an association list from header
names to header values. -/
structure HeaderMap where
  entries : List (String × String)
deriving DecidableEq, Repr

/-- `HeaderMap::new()` (src/lib.rs:77). -/
def HeaderMap.new : HeaderMap := ⟨[]⟩

/-- `HeaderMap::insert` (src/lib.rs:78): replaces any existing entries for
the name and stores the new value. -/
def HeaderMap.insert (m : HeaderMap) (name value : String) : HeaderMap :=
  ⟨m.entries.filter (fun e => e.1 != name) ++ [(name, value)]⟩

/-- Model of `reqwest::Client`: what the builder configures is exactly the
default-header set attached to every request. -/
structure ReqwestClient where
  default_headers : HeaderMap
deriving DecidableEq, Repr

/-- Model of `ReqwestClient::builder().default_headers(h).build()`
(src/lib.rs:82-85).  In the source, `build` can only fail on
environment-dependent transport initialization (TLS backend, resolver),
never as a function of the inputs; the deterministic embedding of the code
path is therefore total, with the `transportInitError` branch of the
taxonomy unreachable from any input. -/
def ReqwestClient.build (h : HeaderMap) : Except ConstructError ReqwestClient :=
  .ok ⟨h⟩

/-- Model of `async_openai::config::OpenAIConfig`: the API base URL and the
bearer credential. -/
structure OpenAIConfig where
  api_base : String
  api_key : String
deriving DecidableEq, Repr

/-- Default API base of `async-openai`. -/
def OPENAI_API_BASE : String := "https://api.openai.com/v1"

/-- `OpenAIConfig::new()` (src/lib.rs:87): default base URL, and the default
credential (taken from the environment by the library, empty when unset);
both defaults are overwritten before use in this crate. -/
def OpenAIConfig.new : OpenAIConfig := ⟨OPENAI_API_BASE, ""⟩

/-- `OpenAIConfig::with_api_base` (src/lib.rs:88). -/
def OpenAIConfig.with_api_base (c : OpenAIConfig) (b : String) : OpenAIConfig :=
  ⟨b, c.api_key⟩

/-- `OpenAIConfig::with_api_key` (src/lib.rs:89). -/
def OpenAIConfig.with_api_key (c : OpenAIConfig) (k : String) : OpenAIConfig :=
  ⟨c.api_base, k⟩

/-- Model of `async_openai::Client<OpenAIConfig>`: the configuration and the
HTTP transport it issues its requests through. -/
structure OpenAIClient where
  config : OpenAIConfig
  http_client : ReqwestClient
deriving DecidableEq, Repr

/-- `OpenAIClient::with_config` (src/lib.rs:91): the library pairs the
configuration with a fresh default transport. -/
def OpenAIClient.with_config (c : OpenAIConfig) : OpenAIClient :=
  ⟨c, ⟨HeaderMap.new⟩⟩

/-- `Client::with_http_client` (src/lib.rs:91): replaces the transport. -/
def OpenAIClient.with_http_client (cl : OpenAIClient) (h : ReqwestClient) :
    OpenAIClient :=
  ⟨cl.config, h⟩

/-- `BASE_URL` (src/lib.rs:19). -/
def BASE_URL : String := "https://api.portkey.ai/v1"

/-- The `Client` struct (src/lib.rs:40-49): the embedded OpenAI client plus
the retained copies of the base URL and the two credentials. -/
structure Client where
  openai : OpenAIClient
  base_url : String
  virtual_key : String
  api_key : String
deriving DecidableEq, Repr

/-- `Client::new` (src/lib.rs:76-99), with the `expect` panics modelled as
the `Except` error channel. -/
def Client.new (api_key virtual_key : String) : Except ConstructError Client := do
  let parsed ← headerValueParse virtual_key
  let reqwest_headers := HeaderMap.new.insert "x-portkey-virtual-key" parsed
  let reqwest_client ← ReqwestClient.build reqwest_headers
  let openai_config := (OpenAIConfig.new.with_api_base BASE_URL).with_api_key api_key
  let openai := (OpenAIClient.with_config openai_config).with_http_client reqwest_client
  return ⟨openai, BASE_URL, virtual_key, api_key⟩

/-- `Client::openai` (src/lib.rs:117-119): consumes the wrapper and returns
the embedded client; in the embedding this is exactly the field projection
`Client.openai`, so the method needs no second definition. -/
def Client.unwrapOpenai (c : Client) : OpenAIClient := c.openai

/-- The value `Client.new` returns on every input whose virtual key is a
valid header value: all fields fully determined by the two inputs. -/
def builtClient (api_key virtual_key : String) : Client :=
  ⟨⟨⟨BASE_URL, api_key⟩, ⟨⟨[("x-portkey-virtual-key", virtual_key)]⟩⟩⟩,
   BASE_URL, virtual_key, api_key⟩

lemma new_valid (a v : String) (h : isValidHeaderValue v = true) :
    Client.new a v = .ok (builtClient a v) := by
  unfold Client.new headerValueParse
  rw [if_pos h]
  rfl

lemma new_invalid (a v : String) (h : isValidHeaderValue v = false) :
    Client.new a v = .error .headerEncodingError := by
  unfold Client.new headerValueParse
  rw [if_neg (by simp [h])]
  rfl

lemma new_ok_elim {a v : String} {c : Client} (h : Client.new a v = .ok c) :
    c = builtClient a v := by
  by_cases hv : isValidHeaderValue v = true
  · rw [new_valid a v hv] at h
    exact (Except.ok.inj h).symm
  · rw [new_invalid a v (by simpa using hv)] at h
    cases h

/-- C1: whenever construction succeeds, the default header set of the
constructed client's transport is exactly the single entry mapping
x-portkey-virtual-key to the supplied virtual key, and the header set does
not depend on the api key (so the api key never enters it as a custom
header). -/
theorem C1_header_set_exact (a v : String) (c : Client)
    (h : Client.new a v = .ok c) :
    c.openai.http_client.default_headers.entries
      = [("x-portkey-virtual-key", v)] ∧
    ∀ a2 c2, Client.new a2 v = .ok c2 →
      c2.openai.http_client.default_headers
        = c.openai.http_client.default_headers := by
  refine ⟨?_, ?_⟩
  · rw [new_ok_elim h]
    rfl
  · intro a2 c2 h2
    rw [new_ok_elim h, new_ok_elim h2]
    rfl

/-- Witness for C1 at concrete inputs. -/
theorem C1_header_set_exact_witness :
    (builtClient "sk-test-123" "vk-test-456").openai.http_client.default_headers.entries
      = [("x-portkey-virtual-key", "vk-test-456")] :=
  (C1_header_set_exact "sk-test-123" "vk-test-456" _ rfl).1

/-- C2: whenever construction succeeds, the bearer credential stored in the
embedded provider configuration equals the supplied api key exactly, and it
does not depend on the virtual key. -/
theorem C2_bearer_credential (a v : String) (c : Client)
    (h : Client.new a v = .ok c) :
    c.openai.config.api_key = a ∧
    ∀ v2 c2, Client.new a v2 = .ok c2 →
      c2.openai.config.api_key = c.openai.config.api_key := by
  refine ⟨?_, ?_⟩
  · rw [new_ok_elim h]
    rfl
  · intro v2 c2 h2
    rw [new_ok_elim h, new_ok_elim h2]
    rfl

/-- Witness for C2 at concrete inputs. -/
theorem C2_bearer_credential_witness :
    (builtClient "sk-test-123" "vk-test-456").openai.config.api_key = "sk-test-123" :=
  (C2_bearer_credential "sk-test-123" "vk-test-456" _ rfl).1

/-- C3: whenever construction succeeds, both the embedded provider
configuration and the wrapper's retained field hold the fixed gateway base
URL exactly. -/
theorem C3_base_url (a v : String) (c : Client)
    (h : Client.new a v = .ok c) :
    c.openai.config.api_base = "https://api.portkey.ai/v1" ∧
    c.base_url = "https://api.portkey.ai/v1" := by
  rw [new_ok_elim h]
  exact ⟨rfl, rfl⟩

/-- Witness for C3 at concrete inputs. -/
theorem C3_base_url_witness :
    (builtClient "sk-test-123" "vk-test-456").openai.config.api_base
      = "https://api.portkey.ai/v1" :=
  (C3_base_url "sk-test-123" "vk-test-456" _ rfl).1

/-- C4: for every virtual key that is not a valid header value,
construction fails with the header-encoding error and no client is
produced. -/
theorem C4_invalid_virtual_key_fails (a v : String)
    (h : isValidHeaderValue v = false) :
    Client.new a v = .error .headerEncodingError ∧
    ∀ c, Client.new a v ≠ .ok c := by
  refine ⟨new_invalid a v h, ?_⟩
  intro c hc
  rw [new_invalid a v h] at hc
  cases hc

/-- Witness for C4: a virtual key containing a raw newline. -/
theorem C4_invalid_virtual_key_fails_witness :
    isValidHeaderValue "bad\nvalue" = false ∧
    Client.new "sk-test-123" "bad\nvalue" = .error .headerEncodingError :=
  ⟨by decide,
   (C4_invalid_virtual_key_fails "sk-test-123" "bad\nvalue" (by decide)).1⟩

/-- C5: noninterference of the two credential channels: the default header
set is a function of the virtual key alone, and the bearer credential is a
function of the api key alone. -/
theorem C5_noninterference :
    (∀ a1 a2 v c1 c2, Client.new a1 v = .ok c1 → Client.new a2 v = .ok c2 →
      c1.openai.http_client.default_headers
        = c2.openai.http_client.default_headers) ∧
    (∀ a v1 v2 c1 c2, Client.new a v1 = .ok c1 → Client.new a v2 = .ok c2 →
      c1.openai.config.api_key = c2.openai.config.api_key) := by
  refine ⟨?_, ?_⟩
  · intro a1 a2 v c1 c2 h1 h2
    rw [new_ok_elim h1, new_ok_elim h2]
    rfl
  · intro a v1 v2 c1 c2 h1 h2
    rw [new_ok_elim h1, new_ok_elim h2]
    rfl

/-- Witness for C5: two runs differing only in the api key give the same
header set, and two runs differing only in the virtual key give the same
bearer credential. -/
theorem C5_noninterference_witness :
    (builtClient "sk-one" "vk-same").openai.http_client.default_headers
      = (builtClient "sk-two" "vk-same").openai.http_client.default_headers ∧
    (builtClient "sk-same" "vk-one").openai.config.api_key
      = (builtClient "sk-same" "vk-two").openai.config.api_key :=
  ⟨C5_noninterference.1 "sk-one" "sk-two" "vk-same" _ _ rfl rfl,
   C5_noninterference.2 "sk-same" "vk-one" "vk-two" _ _ rfl rfl⟩

/-- C6: construction is atomic: for every input pair it either returns the
fully configured client, with every field determined, or fails whole with
the header-encoding error; no third outcome and no partial client exists. -/
theorem C6_atomic (a v : String) :
    Client.new a v = .ok (builtClient a v) ∨
    Client.new a v = .error .headerEncodingError := by
  by_cases hv : isValidHeaderValue v = true
  · exact Or.inl (new_valid a v hv)
  · exact Or.inr (new_invalid a v (by simpa using hv))

/-- C7: the consuming accessor returns exactly the embedded provider
client, unmodified; the result is the same whatever the wrapper's retained
base URL, virtual key and api key fields are, so none of them is
retrievable from it. -/
theorem C7_unwrap_consumes (o : OpenAIClient) (b v a : String) :
    (Client.mk o b v a).unwrapOpenai = o := rfl

/-- C8: whenever construction succeeds, the wrapper retains copies equal to
the fixed gateway constant, the supplied virtual key and the supplied api
key. -/
theorem C8_retained_copies (a v : String) (c : Client)
    (h : Client.new a v = .ok c) :
    c.base_url = BASE_URL ∧ c.virtual_key = v ∧ c.api_key = a := by
  rw [new_ok_elim h]
  exact ⟨rfl, rfl, rfl⟩

/-- Witness for C8 at concrete inputs. -/
theorem C8_retained_copies_witness :
    (builtClient "sk-test-123" "vk-test-456").virtual_key = "vk-test-456" :=
  (C8_retained_copies "sk-test-123" "vk-test-456" _ rfl).2.1

/-- C9: construction performs no emptiness validation: with an empty
virtual key it succeeds for every api key, with an empty api key it
succeeds for every valid virtual key, and the empty values are attached as
the header value and the credential. -/
theorem C9_no_emptiness_validation :
    (∀ a, Client.new a "" = .ok (builtClient a "")) ∧
    (∀ v, isValidHeaderValue v = true → Client.new "" v = .ok (builtClient "" v)) ∧
    (builtClient "" "").openai.http_client.default_headers.entries
      = [("x-portkey-virtual-key", "")] ∧
    (builtClient "" "").openai.config.api_key = "" := by
  refine ⟨?_, ?_, rfl, rfl⟩
  · intro a
    exact new_valid a "" (by decide)
  · intro v hv
    exact new_valid "" v hv

/-- Witness for C9 at concrete inputs: both credentials empty. -/
theorem C9_no_emptiness_validation_witness :
    Client.new "" "" = .ok (builtClient "" "") :=
  C9_no_emptiness_validation.1 ""

/-- C10: the content of the api key can never cause construction to fail:
for every api key, including ones invalid as header values, paired with a
valid virtual key, construction succeeds and stores that api key. -/
theorem C10_api_key_never_fails (a v : String)
    (h : isValidHeaderValue v = true) :
    Client.new a v = .ok (builtClient a v) ∧ (builtClient a v).api_key = a :=
  ⟨new_valid a v h, rfl⟩

/-- Witness for C10: an api key containing a raw newline still succeeds. -/
theorem C10_api_key_never_fails_witness :
    isValidHeaderValue "bad\nkey" = false ∧
    Client.new "bad\nkey" "vk-test-456"
      = .ok (builtClient "bad\nkey" "vk-test-456") :=
  ⟨by decide,
   (C10_api_key_never_fails "bad\nkey" "vk-test-456" (by decide)).1⟩

end Portkey
